import Mathlib

/-!
Shallow embedding of the DetectIQ settings subsystem
(`detectiq/core/settings/base.py`): the pydantic data model
(`IntegrationCredentials`, `Integrations`, `DetectIQSettings`), the keyring
secret store, and the three operations of `SettingsManager`
(`_load_settings`, `save_settings`, `update_settings`).

Modelling conventions:
- Python dicts with known string keys become structures with `Option` fields
  (`none` = key absent or value `None`; pydantic `exclude_none` and explicit
  JSON `null` coincide observationally for the optional fields involved).
- `keyring` is an association list of (secret-name, value) pairs together with
  a set of names on which the OS backend raises; `get_password`/`set_password`
  return `Except Unit _` so that a raising backend is observable.
- `save_settings` is decomposed into the ordered list of external writes it
  performs (`saveEvents`): the keyring writes in program order followed by the
  single settings-file write.
- `SecretStr` values are modelled by their underlying string: pydantic
  `SecretStr` defines `__len__`, so an empty secret is falsy exactly like an
  empty `str`, and `json.dump(..., default=str)` serialises an un-redacted
  empty secret as the empty string.
- Record-level unknown extra keys inside a single integration record are not
  modelled; unknown integration *names* (extra keys of `Integrations`) are
  modelled, since `update_settings` treats them specially.
-/

namespace DetectIQ

/-- Association-list lookup, first match wins (a Python dict read). -/
def alookup {α : Type} (l : List (String × α)) (k : String) : Option α :=
  match l with
  | [] => none
  | (k', v) :: t => if k' = k then some v else alookup t k

instance {ε α : Type} [DecidableEq ε] [DecidableEq α] : DecidableEq (Except ε α) :=
  fun a b =>
    match a, b with
    | .ok x, .ok y =>
      if h : x = y then .isTrue (by rw [h]) else .isFalse (fun hc => h (by cases hc; rfl))
    | .error x, .error y =>
      if h : x = y then .isTrue (by rw [h]) else .isFalse (fun hc => h (by cases hc; rfl))
    | .ok _, .error _ => .isFalse (fun hc => Except.noConfusion hc)
    | .error _, .ok _ => .isFalse (fun hc => Except.noConfusion hc)

/-- Python truthiness-based `a or b` on an optional string: `a` wins only when
it is present and non-empty. -/
def pyOr (a : Option String) (b : String) : String :=
  match a with
  | some s => if s = "" then b else s
  | none => b

/-- The raw dict form of one integration credentials record, as it appears in
the settings file and in the intermediate `settings_dict` (known keys only;
`none` = key absent / value `None`). -/
structure CredDict where
  hostname : Option String := none
  username : Option String := none
  password : Option String := none
  api_key : Option String := none
  client_id : Option String := none
  client_secret : Option String := none
  tenant_id : Option String := none
  cloud_id : Option String := none
  app : Option String := none
  owner : Option String := none
  verify_ssl : Option Bool := none
  enabled : Option Bool := none
deriving DecidableEq, Repr

/-- A validated integration credentials record (`IntegrationCredentials` and
its three specialisations share this shape; Splunk's `SecretStr` password is
modelled by its underlying string). Field defaults are the pydantic defaults. -/
structure IntegrationCredentials where
  hostname : String := ""
  username : Option String := none
  password : Option String := none
  api_key : Option String := none
  client_id : Option String := none
  client_secret : Option String := none
  tenant_id : Option String := none
  cloud_id : Option String := none
  app : Option String := none
  owner : Option String := none
  verify_ssl : Bool := true
  enabled : Bool := false
deriving DecidableEq, Repr

/-- The `Integrations` container: the three declared fields plus, because of
`extra = "allow"`, the extra entries keyed by unknown integration names. -/
structure Integrations where
  elastic : IntegrationCredentials := {}
  splunk : IntegrationCredentials := {}
  microsoft_xdr : IntegrationCredentials := {}
  extras : List (String × CredDict) := []
deriving DecidableEq, Repr

/-- Default rule directories from the `DetectIQSettings` field default
(`DEFAULT_DIRS.*_RULE_DIR`, an external constant, modelled as literals). -/
def classDefaultRuleDirs : List (String × String) :=
  [("sigma", "DEFAULT_DIRS/SIGMA_RULE_DIR"),
   ("yara", "DEFAULT_DIRS/YARA_RULE_DIR"),
   ("snort", "DEFAULT_DIRS/SNORT_RULE_DIR")]

/-- Default vector-store directories from the `DetectIQSettings` field
default (`DEFAULT_DIRS.*_VECTOR_STORE_DIR`). -/
def classDefaultVectorDirs : List (String × String) :=
  [("sigma", "DEFAULT_DIRS/SIGMA_VECTOR_STORE_DIR"),
   ("yara", "DEFAULT_DIRS/YARA_VECTOR_STORE_DIR"),
   ("snort", "DEFAULT_DIRS/SNORT_VECTOR_STORE_DIR")]

/-- The validated root settings model (`DetectIQSettings`). The directory
mappings have plain `dict` type in the source, so they are arbitrary
string-to-string association lists here. -/
structure DetectIQSettings where
  openai_api_key : String := ""
  rule_directories : List (String × String) := classDefaultRuleDirs
  vector_store_directories : List (String × String) := classDefaultVectorDirs
  log_level : String := "INFO"
  model : String := "gpt-4o"
  integrations : Integrations := {}
deriving DecidableEq, Repr

/-- The application name under which all secrets are stored. -/
def APP_NAME : String := "detectiq"

/-- The OS secret store: stored (name, value) pairs for this application,
plus the set of secret names on which the backend raises. -/
structure Keyring where
  store : List (String × String) := []
  failing : List String := []
deriving DecidableEq, Repr

/-- `keyring.get_password(APP_NAME, name)`: `none` when no secret is stored;
raises (`Except.error`) when the backend fails for this name. -/
def Keyring.getPassword (kr : Keyring) (name : String) : Except Unit (Option String) :=
  if name ∈ kr.failing then .error () else .ok (alookup kr.store name)

/-- `keyring.set_password(APP_NAME, name, v)`. -/
def Keyring.setPassword (kr : Keyring) (name v : String) : Except Unit Keyring :=
  if name ∈ kr.failing then .error ()
  else .ok { kr with store := (name, v) :: kr.store }

/-- The environment variables the manager consults (`none` = unset). -/
structure Env where
  OPENAI_API_KEY : Option String := none
  DETECTIQ_LOG_LEVEL : Option String := none
  DETECTIQ_MODEL : Option String := none
deriving DecidableEq, Repr

/-- The JSON object stored in `settings.json` (top-level keys optional, since
`settings_dict.update(file_settings)` only touches keys the file has). -/
structure FileSettings where
  openai_api_key : Option String := none
  rule_directories : Option (List (String × String)) := none
  vector_store_directories : Option (List (String × String)) := none
  log_level : Option String := none
  model : Option String := none
  integrations : Option (List (String × CredDict)) := none
deriving DecidableEq, Repr

/-- The state of the settings file as seen by `_load_settings`: absent,
unreadable/not-valid-JSON, or a parsed JSON object. -/
inductive FileState where
  | absent : FileState
  | corrupt : FileState
  | present : FileSettings → FileState
deriving DecidableEq, Repr

/-- The intermediate `settings_dict` built by `_load_settings` (all keys
present once the defaults block has run). -/
structure SettingsDict where
  openai_api_key : String
  rule_directories : List (String × String)
  vector_store_directories : List (String × String)
  log_level : String
  model : String
  integrations : List (String × CredDict)
deriving DecidableEq, Repr

/-- The `SENSITIVE_FIELDS` routing table, read as `SENSITIVE_FIELDS.get(name, [])`
(the source guards each loop with `if name in self.SENSITIVE_FIELDS`). -/
def SENSITIVE_FIELDS (name : String) : List String :=
  if name = "splunk" then ["password"]
  else if name = "elastic" then ["api_key"]
  else if name = "microsoft_xdr" then ["client_secret"]
  else if name = "global" then ["openai_api_key"]
  else []

/-- Dict write `config[field] = v` for the record fields that
`SENSITIVE_FIELDS` can name on an integration record (`openai_api_key` is not
a modelled record key, so that write is a no-op here). -/
def setField (c : CredDict) (f v : String) : CredDict :=
  if f = "password" then { c with password := some v }
  else if f = "api_key" then { c with api_key := some v }
  else if f = "client_secret" then { c with client_secret := some v }
  else c

/-- Pydantic `.dict()` of one validated credentials record. With
`exclude_none` the `none` fields are the absent keys; without it they are
explicit `None` values — both are `none` here (observationally equal for the
optional fields downstream). -/
def dumpCred (c : IntegrationCredentials) : CredDict :=
  { hostname := some c.hostname, username := c.username, password := c.password,
    api_key := c.api_key, client_id := c.client_id, client_secret := c.client_secret,
    tenant_id := c.tenant_id, cloud_id := c.cloud_id, app := c.app, owner := c.owner,
    verify_ssl := some c.verify_ssl, enabled := some c.enabled }

/-- Pydantic `.dict()` of `Integrations`: declared fields in declaration
order (elastic, splunk, microsoft_xdr), then the extra entries. -/
def dumpIntegrations (i : Integrations) : List (String × CredDict) :=
  ("elastic", dumpCred i.elastic) :: ("splunk", dumpCred i.splunk) ::
    ("microsoft_xdr", dumpCred i.microsoft_xdr) :: i.extras

/-- Validation of a raw record dict into `IntegrationCredentials`
(`SplunkCredentials(**config)` etc.: absent keys take the field defaults). -/
def validateCred (c : CredDict) : IntegrationCredentials :=
  { hostname := c.hostname.getD "", username := c.username, password := c.password,
    api_key := c.api_key, client_id := c.client_id, client_secret := c.client_secret,
    tenant_id := c.tenant_id, cloud_id := c.cloud_id, app := c.app, owner := c.owner,
    verify_ssl := c.verify_ssl.getD true, enabled := c.enabled.getD false }

/-- The three declared integration names of `Integrations`. -/
def knownIntegrationNames : List String := ["elastic", "splunk", "microsoft_xdr"]

/-- Validation `Integrations(**d)` of an integrations dict: each declared
name validated from its entry or default-constructed, every other entry kept
verbatim as an extra (`extra = "allow"`). -/
def validateIntegrations (l : List (String × CredDict)) : Integrations :=
  { elastic := match alookup l "elastic" with | some c => validateCred c | none => {}
    splunk := match alookup l "splunk" with | some c => validateCred c | none => {}
    microsoft_xdr := match alookup l "microsoft_xdr" with | some c => validateCred c | none => {}
    extras := l.filter (fun kv => ¬ kv.1 ∈ knownIntegrationNames) }

/-- Validation `DetectIQSettings(**settings_dict)` of the intermediate dict
(every key present and already of the right shape at this point). -/
def validateSettings (sd : SettingsDict) : DetectIQSettings :=
  { openai_api_key := sd.openai_api_key,
    rule_directories := sd.rule_directories,
    vector_store_directories := sd.vector_store_directories,
    log_level := sd.log_level, model := sd.model,
    integrations := validateIntegrations sd.integrations }

/-- The project-root used for default paths (a constant in the source). -/
def PROJECT_ROOT : String := "PROJECT_ROOT"

/-- The defaults/env block of `_load_settings` (its `settings_dict` literal),
given the result `k0` of the initial `keyring.get_password` call. -/
def initialDict (env : Env) (k0 : Option String) : SettingsDict :=
  { openai_api_key := pyOr k0 (env.OPENAI_API_KEY.getD ""),
    rule_directories :=
      [("sigma", PROJECT_ROOT ++ "/rules/sigma"),
       ("yara", PROJECT_ROOT ++ "/rules/yara"),
       ("snort", PROJECT_ROOT ++ "/rules/snort")],
    vector_store_directories :=
      [("sigma", PROJECT_ROOT ++ "/vector_stores/sigma"),
       ("yara", PROJECT_ROOT ++ "/vector_stores/yara"),
       ("snort", PROJECT_ROOT ++ "/vector_stores/snort")],
    log_level := env.DETECTIQ_LOG_LEVEL.getD "INFO",
    model := env.DETECTIQ_MODEL.getD "gpt-4",
    integrations :=
      [("splunk", dumpCred {}), ("elastic", dumpCred {}),
       ("microsoft_xdr", dumpCred {})] }

/-- `settings_dict.update(file_settings)`: top-level keys present in the file
replace the corresponding keys wholesale. -/
def mergeFile (sd : SettingsDict) (fs : FileSettings) : SettingsDict :=
  { openai_api_key := fs.openai_api_key.getD sd.openai_api_key,
    rule_directories := fs.rule_directories.getD sd.rule_directories,
    vector_store_directories := fs.vector_store_directories.getD sd.vector_store_directories,
    log_level := fs.log_level.getD sd.log_level,
    model := fs.model.getD sd.model,
    integrations := fs.integrations.getD sd.integrations }

/-- The inner loop of the keyring-injection pass for one record: walk the
sensitive field names, look each up, and overwrite the record key when a
non-empty stored value is found. An `Except.error` from the backend escapes
with the partially updated record (in-place dict mutation persists). -/
def injectFields (kr : Keyring) (n : String) (c : CredDict) :
    List String → Except CredDict CredDict
  | [] => .ok c
  | f :: rest =>
    match kr.getPassword (n ++ "_" ++ f) with
    | .error _ => .error c
    | .ok stored =>
      match stored with
      | some v => if v = "" then injectFields kr n c rest
                  else injectFields kr n (setField c f v) rest
      | none => injectFields kr n c rest

/-- The keyring-injection pass of `_load_settings` over the merged
`integrations` dict. A backend exception aborts the remaining iterations (it
is caught by the surrounding `except`), but updates already made persist. -/
def injectSecrets (kr : Keyring) : List (String × CredDict) → List (String × CredDict)
  | [] => []
  | (n, c) :: t =>
    match injectFields kr n c (SENSITIVE_FIELDS n) with
    | .ok c' => (n, c') :: injectSecrets kr t
    | .error c' => (n, c') :: t

/-- `SettingsManager._load_settings`: defaults/env block (with its unguarded
`keyring.get_password` call), then — only when the file exists — the guarded
parse / shallow-merge / keyring-injection block, then validation. -/
def load_settings (env : Env) (kr : Keyring) (file : FileState) :
    Except Unit DetectIQSettings :=
  match kr.getPassword "openai_api_key" with
  | .error e => .error e
  | .ok k0 =>
    let sd := initialDict env k0
    let sd :=
      match file with
      | .present fs =>
        let m := mergeFile sd fs
        { m with integrations := injectSecrets kr m.integrations }
      | _ => sd
    .ok (validateSettings sd)

/-- One integration record's step of the save loop: the keyring writes it
emits (in order) and the redacted copy bound for the file. A field is written
and redacted exactly when truthy (present and non-empty; an empty `SecretStr`
is falsy via `__len__` and serialises to the empty string). -/
def redactCred (name : String) (c : CredDict) : List (String × String) × CredDict :=
  if name = "splunk" then
    match c.password with
    | some v => if v = "" then ([], c)
                else ([("splunk_password", v)], { c with password := some "" })
    | none => ([], c)
  else if name = "elastic" then
    match c.api_key with
    | some v => if v = "" then ([], c)
                else ([("elastic_api_key", v)], { c with api_key := some "" })
    | none => ([], c)
  else if name = "microsoft_xdr" then
    match c.client_secret with
    | some v => if v = "" then ([], c)
                else ([("microsoft_xdr_client_secret", v)], { c with client_secret := some "" })
    | none => ([], c)
  else ([], c)

/-- The keyring writes of the save loop over a dumped integrations dict, in
iteration order. -/
def intSecrets (l : List (String × CredDict)) : List (String × String) :=
  (l.map (fun nc => (redactCred nc.1 nc.2).1)).flatten

/-- The redacted integrations dict bound for the file. -/
def redactedIntegrations (l : List (String × CredDict)) : List (String × CredDict) :=
  l.map (fun nc => (nc.1, (redactCred nc.1 nc.2).2))

/-- All keyring writes `save_settings` performs, in program order: the
OpenAI key first, then the integration loop. -/
def saveSecrets (s : DetectIQSettings) : List (String × String) :=
  (if s.openai_api_key = "" then []
   else [("openai_api_key", s.openai_api_key)]) ++
    intSecrets (dumpIntegrations s.integrations)

/-- The JSON object `save_settings` writes to the settings file (the
`file_settings` copy after redaction). -/
def savedFile (s : DetectIQSettings) : FileSettings :=
  { openai_api_key := some (if s.openai_api_key = "" then s.openai_api_key else ""),
    rule_directories := some s.rule_directories,
    vector_store_directories := some s.vector_store_directories,
    log_level := some s.log_level,
    model := some s.model,
    integrations := some (redactedIntegrations (dumpIntegrations s.integrations)) }

/-- An external write performed by `save_settings`. -/
inductive SaveEvent where
  | setSecret : String → String → SaveEvent
  | writeFile : FileSettings → SaveEvent
deriving DecidableEq, Repr

/-- `SettingsManager.save_settings` as its ordered sequence of external
writes: every keyring write strictly precedes the single file write. -/
def saveEvents (s : DetectIQSettings) : List SaveEvent :=
  (saveSecrets s).map (fun nv => SaveEvent.setSecret nv.1 nv.2) ++
    [SaveEvent.writeFile (savedFile s)]

/-- Running `save_settings` against a keyring: each `set_password` may raise
(aborting the save before the file write); on success the new keyring and the
written file result. -/
def runSave (kr : Keyring) (s : DetectIQSettings) :
    Except Unit (Keyring × FileSettings) :=
  match (saveSecrets s).foldlM (fun k nv => k.setPassword nv.1 nv.2) kr with
  | .error e => .error e
  | .ok kr' => .ok (kr', savedFile s)

/-- The keyword arguments accepted by `update_settings` (each `none` = the
keyword was not passed). -/
structure UpdateArgs where
  openai_api_key : Option String := none
  rule_directories : Option (List (String × String)) := none
  vector_store_directories : Option (List (String × String)) := none
  log_level : Option String := none
  model : Option String := none
  integrations : Option (List (String × CredDict)) := none
deriving DecidableEq, Repr

/-- One iteration of the `integrations` loop of `update_settings`: record the
entry under its slot when the name is one of the three known ones, drop it
otherwise (slots: splunk, elastic, microsoft_xdr). -/
def updStep (acc : Option CredDict × Option CredDict × Option CredDict)
    (kv : String × CredDict) : Option CredDict × Option CredDict × Option CredDict :=
  if kv.1 = "splunk" then (some kv.2, acc.2.1, acc.2.2)
  else if kv.1 = "elastic" then (acc.1, some kv.2, acc.2.2)
  else if kv.1 = "microsoft_xdr" then (acc.1, acc.2.1, some kv.2)
  else acc

/-- The `integrations` branch of `update_settings`: iterate the passed
mapping, keep only the three known names (validated into fresh records,
last occurrence winning), and build a new `Integrations` from exactly those —
names not passed are default-constructed, unknown names are dropped. -/
def buildIntegrations (items : List (String × CredDict)) : Integrations :=
  let d := items.foldl updStep (none, none, none)
  { splunk := match d.1 with | some c => validateCred c | none => {}
    elastic := match d.2.1 with | some c => validateCred c | none => {}
    microsoft_xdr := match d.2.2 with | some c => validateCred c | none => {}
    extras := [] }

/-- `SettingsManager.update_settings`: dump the current settings, overwrite
each passed key (the `integrations` key via `buildIntegrations`), and
re-validate into a new `DetectIQSettings`. -/
def update_settings (s : DetectIQSettings) (p : UpdateArgs) : DetectIQSettings :=
  { openai_api_key := p.openai_api_key.getD s.openai_api_key,
    rule_directories := p.rule_directories.getD s.rule_directories,
    vector_store_directories := p.vector_store_directories.getD s.vector_store_directories,
    log_level := p.log_level.getD s.log_level,
    model := p.model.getD s.model,
    integrations :=
      match p.integrations with
      | some items => buildIntegrations items
      | none => validateIntegrations (dumpIntegrations s.integrations) }

/-- The in-memory state of a `SettingsManager` together with its two
persistence targets. -/
structure ManagerState where
  settings : DetectIQSettings
  keyring : Keyring
  file : FileState
deriving DecidableEq, Repr

/-- `save_settings` as a transition on the manager state: the in-memory
settings object is only read, never written. -/
def saveStep (st : ManagerState) : Except Unit ManagerState :=
  match runSave st.keyring st.settings with
  | .error e => .error e
  | .ok (kr', fs) =>
    .ok { settings := st.settings, keyring := kr', file := .present fs }

/-- Extras well-formedness: pydantic can never store an extra field under a
declared field name, so the extra integration entries never use one of the
three declared names. -/
def Integrations.wfExtras (i : Integrations) : Prop :=
  ∀ kv ∈ i.extras, ¬ kv.1 ∈ knownIntegrationNames

instance (i : Integrations) : Decidable i.wfExtras := by
  unfold Integrations.wfExtras; infer_instance

/-- Reading one sensitive field out of one integration record of the
persisted file (`none` when the key is absent from the file). -/
def credField (c : CredDict) (f : String) : Option String :=
  if f = "password" then c.password
  else if f = "api_key" then c.api_key
  else if f = "client_secret" then c.client_secret
  else none

/-- Reading `file["integrations"][iname][f]` from a persisted file. -/
def fileFieldOf (fs : FileSettings) (iname f : String) : Option String :=
  match fs.integrations with
  | some l =>
    match alookup l iname with
    | some c => credField c f
    | none => none
  | none => none

/-- A concrete default-constructed `DetectIQSettings` (what
`DetectIQSettings()` builds). -/
def defaultSettings : DetectIQSettings := {}

/-- The three-key property the spec asserts of the directory mappings. -/
def hasThreeKeys (l : List (String × String)) : Prop :=
  (alookup l "sigma").isSome ∧ (alookup l "yara").isSome ∧ (alookup l "snort").isSome

/-- Equality of two integration sets everywhere except the three sensitive
slots named by `SENSITIVE_FIELDS` (splunk password, elastic api_key,
microsoft_xdr client_secret). -/
def nonSensitiveEqIntegrations (a b : Integrations) : Prop :=
  { a.splunk with password := none } = { b.splunk with password := none } ∧
  { a.elastic with api_key := none } = { b.elastic with api_key := none } ∧
  { a.microsoft_xdr with client_secret := none } =
    { b.microsoft_xdr with client_secret := none } ∧
  a.extras = b.extras

instance (a b : Integrations) : Decidable (nonSensitiveEqIntegrations a b) := by
  unfold nonSensitiveEqIntegrations; infer_instance

/-! Concrete inputs used by witnesses and counterexamples. -/

/-- A concrete settings instance holding a secret in every sensitive slot. -/
def sFull : DetectIQSettings :=
  { openai_api_key := "sk-test",
    log_level := "DEBUG",
    model := "gpt-4o-mini",
    integrations :=
      { splunk := { hostname := "sp.example", username := some "admin", password := some "pw" },
        elastic := { hostname := "es.example", api_key := some "ek", enabled := true },
        microsoft_xdr := { tenant_id := some "t1", client_id := some "c1", client_secret := some "cs" },
        extras := [("custom", { hostname := some "h" })] } }

/-- Extract the settings from a successful load (defaults on error; only used
to name concrete values in witnesses). -/
def exOk (e : Except Unit DetectIQSettings) : DetectIQSettings :=
  match e with
  | .ok t => t
  | .error _ => {}

/-- The concrete result of a file-less load against a secret store that holds
an OpenAI key, with the corresponding environment variable also set. -/
def loadedNoFile : DetectIQSettings :=
  exOk (load_settings { OPENAI_API_KEY := some "sk-env" }
    { store := [("openai_api_key", "sk-secret")] } .absent)

/-- The concrete keyring and file produced by saving `sFull` against an
empty keyring (defaults on error; only used to name values in a witness). -/
def rtSave : Keyring × FileSettings :=
  match runSave { store := [], failing := [] } sFull with
  | .ok p => p
  | .error _ => ({}, {})

/-- The concrete result of loading back what the save of `sFull` wrote. -/
def rtLoaded : DetectIQSettings :=
  exOk (load_settings {} rtSave.1 (.present rtSave.2))

/-- A concrete manager state before a save. -/
def stFull : ManagerState :=
  { settings := sFull, keyring := {}, file := .absent }

/-- The concrete manager state after saving `stFull` (identity on error; only
used to name the concrete value in a witness). -/
def stFullSaved : ManagerState :=
  match saveStep stFull with
  | .ok st => st
  | .error _ => stFull

/-! Theorems. -/

theorem alookup_append {α : Type} (l r : List (String × α)) (k : String) :
    alookup (l ++ r) k =
      match alookup l k with
      | some v => some v
      | none => alookup r k := by
  induction l with
  | nil => simp [alookup]
  | cons p t ih =>
    by_cases h : p.1 = k
    · simp [alookup, h]
    · simpa [alookup, h] using ih

theorem alookup_eq_none {α : Type} {l : List (String × α)} {k : String}
    (h : ∀ p ∈ l, p.1 ≠ k) : alookup l k = none := by
  induction l with
  | nil => rfl
  | cons p t ih =>
    have hp : p.1 ≠ k := h p (by simp)
    simp only [alookup, if_neg hp]
    exact ih (fun q hq => h q (by simp [hq]))

/-- Claim C1 (amended): after `save_settings(S)`, for every `SensitiveFieldMap`
entry the on-disk field is the empty string whenever S holds a value in that
field, and is absent from the file when S holds `None` (`exclude_none`); the
root `openai_api_key` is always the empty string; and every non-empty
sensitive value is written to the secret store under
`{integration_or_global}_{field}` strictly before the file write (the file
write is the last external write of the save). -/
theorem save_redaction (s : DetectIQSettings) :
    (savedFile s).openai_api_key = some "" ∧
    (s.integrations.splunk.password.isSome →
      fileFieldOf (savedFile s) "splunk" "password" = some "") ∧
    (s.integrations.splunk.password = none →
      fileFieldOf (savedFile s) "splunk" "password" = none) ∧
    (s.integrations.elastic.api_key.isSome →
      fileFieldOf (savedFile s) "elastic" "api_key" = some "") ∧
    (s.integrations.elastic.api_key = none →
      fileFieldOf (savedFile s) "elastic" "api_key" = none) ∧
    (s.integrations.microsoft_xdr.client_secret.isSome →
      fileFieldOf (savedFile s) "microsoft_xdr" "client_secret" = some "") ∧
    (s.integrations.microsoft_xdr.client_secret = none →
      fileFieldOf (savedFile s) "microsoft_xdr" "client_secret" = none) ∧
    (s.openai_api_key ≠ "" → ("openai_api_key", s.openai_api_key) ∈ saveSecrets s) ∧
    (∀ v, s.integrations.splunk.password = some v → v ≠ "" →
      ("splunk_password", v) ∈ saveSecrets s) ∧
    (∀ v, s.integrations.elastic.api_key = some v → v ≠ "" →
      ("elastic_api_key", v) ∈ saveSecrets s) ∧
    (∀ v, s.integrations.microsoft_xdr.client_secret = some v → v ≠ "" →
      ("microsoft_xdr_client_secret", v) ∈ saveSecrets s) ∧
    saveEvents s =
      (saveSecrets s).map (fun nv => SaveEvent.setSecret nv.1 nv.2) ++
        [SaveEvent.writeFile (savedFile s)] := by
  refine ⟨?_, ?_, ?_, ?_, ?_, ?_, ?_, ?_, ?_, ?_, ?_, rfl⟩
  · by_cases h : s.openai_api_key = "" <;> simp [savedFile, h]
  · intro hsome
    rcases hp : s.integrations.splunk.password with _ | v
    · rw [hp] at hsome; simp at hsome
    · by_cases hv : v = "" <;>
        simp [fileFieldOf, savedFile, redactedIntegrations, dumpIntegrations,
          redactCred, dumpCred, credField, alookup, hp, hv]
  · intro hnone
    simp [fileFieldOf, savedFile, redactedIntegrations, dumpIntegrations,
      redactCred, dumpCred, credField, alookup, hnone]
  · intro hsome
    rcases hp : s.integrations.elastic.api_key with _ | v
    · rw [hp] at hsome; simp at hsome
    · by_cases hv : v = "" <;>
        simp [fileFieldOf, savedFile, redactedIntegrations, dumpIntegrations,
          redactCred, dumpCred, credField, alookup, hp, hv]
  · intro hnone
    simp [fileFieldOf, savedFile, redactedIntegrations, dumpIntegrations,
      redactCred, dumpCred, credField, alookup, hnone]
  · intro hsome
    rcases hp : s.integrations.microsoft_xdr.client_secret with _ | v
    · rw [hp] at hsome; simp at hsome
    · by_cases hv : v = "" <;>
        simp [fileFieldOf, savedFile, redactedIntegrations, dumpIntegrations,
          redactCred, dumpCred, credField, alookup, hp, hv]
  · intro hnone
    simp [fileFieldOf, savedFile, redactedIntegrations, dumpIntegrations,
      redactCred, dumpCred, credField, alookup, hnone]
  · intro h
    simp [saveSecrets, h]
  · intro v hp hv
    simp [saveSecrets, intSecrets, dumpIntegrations, redactCred, dumpCred, hp, hv]
  · intro v hp hv
    simp [saveSecrets, intSecrets, dumpIntegrations, redactCred, dumpCred, hp, hv]
  · intro v hp hv
    simp [saveSecrets, intSecrets, dumpIntegrations, redactCred, dumpCred, hp, hv]

/-- Claim C1, counterexample: for the default-constructed settings (whose
Splunk password is `None`), the saved file's `splunk.password` field is not
the empty string — the key is absent from the file altogether. -/
theorem save_redaction_counterexample :
    fileFieldOf (savedFile defaultSettings) "splunk" "password" ≠ some "" := by
  decide

/-- Claim C1, witness: the amended redaction theorem evaluated on a concrete
settings instance with every sensitive slot populated. -/
theorem save_redaction_witness :
    fileFieldOf (savedFile sFull) "splunk" "password" = some "" ∧
    ("splunk_password", "pw") ∈ saveSecrets sFull := by
  have h := save_redaction sFull
  exact ⟨h.2.1 (by decide), h.2.2.2.2.2.2.2.2.1 "pw" (by decide) (by decide)⟩

theorem validateCred_dumpCred (c : IntegrationCredentials) :
    validateCred (dumpCred c) = c := by
  cases c; simp [dumpCred, validateCred]

theorem validateIntegrations_dumpIntegrations (i : Integrations)
    (h : i.wfExtras) : validateIntegrations (dumpIntegrations i) = i := by
  have hf : i.extras.filter (fun kv => ¬ kv.1 ∈ knownIntegrationNames) = i.extras := by
    rw [List.filter_eq_self]
    intro kv hkv
    simpa using h kv hkv
  have he : ("elastic" : String) ∈ knownIntegrationNames := by decide
  have hs : ("splunk" : String) ∈ knownIntegrationNames := by decide
  have hx : ("microsoft_xdr" : String) ∈ knownIntegrationNames := by decide
  cases i
  simp_all [validateIntegrations, dumpIntegrations, alookup, validateCred_dumpCred,
    List.filter_cons]
  exact hf

/-- Claim C6: `update_settings(model="x")` changes only `model`; every other
top-level field, in particular `rule_directories`, is unchanged. -/
theorem update_model_frame (s : DetectIQSettings) (x : String)
    (h : s.integrations.wfExtras) :
    (update_settings s { model := some x }).model = x ∧
    (update_settings s { model := some x }).openai_api_key = s.openai_api_key ∧
    (update_settings s { model := some x }).rule_directories = s.rule_directories ∧
    (update_settings s { model := some x }).vector_store_directories =
      s.vector_store_directories ∧
    (update_settings s { model := some x }).log_level = s.log_level ∧
    (update_settings s { model := some x }).integrations = s.integrations := by
  refine ⟨rfl, rfl, rfl, rfl, rfl, ?_⟩
  simpa [update_settings] using validateIntegrations_dumpIntegrations s.integrations h

/-- Claim C6, witness: the frame theorem evaluated on a concrete instance. -/
theorem update_model_frame_witness :
    (update_settings sFull { model := some "gpt-x" }).model = "gpt-x" ∧
    (update_settings sFull { model := some "gpt-x" }).rule_directories =
      sFull.rule_directories := by
  have h := update_model_frame sFull "gpt-x" (by decide)
  exact ⟨h.1, h.2.2.1⟩

theorem updStep_foldl (items : List (String × CredDict)) :
    items.foldl updStep (none, none, none) =
      (alookup items.reverse "splunk", alookup items.reverse "elastic",
        alookup items.reverse "microsoft_xdr") := by
  induction items using List.reverseRecOn with
  | nil => rfl
  | append_singleton l x ih =>
    rcases x with ⟨n, c⟩
    rw [List.foldl_append, List.foldl_cons, List.foldl_nil, ih, List.reverse_append]
    by_cases h1 : n = "splunk"
    · subst h1; simp [updStep, alookup]
    · by_cases h2 : n = "elastic"
      · subst h2; simp [updStep, alookup]
      · by_cases h3 : n = "microsoft_xdr"
        · subst h3; simp [updStep, alookup]
        · simp [updStep, alookup, h1, h2, h3]

/-- Claim C5 (amended): in `update_settings(integrations=items)`, each named
known integration's record is replaced wholesale by a record built from the
partial's data alone (last occurrence winning); but every integration NOT
named in the partial is reset to its default-constructed record — its prior
value is lost — and the result carries no extra integration entries. -/
theorem integration_update_amended (s : DetectIQSettings)
    (items : List (String × CredDict)) :
    ((update_settings s { integrations := some items }).integrations.splunk =
      match alookup items.reverse "splunk" with
      | some c => validateCred c
      | none => ({} : IntegrationCredentials)) ∧
    ((update_settings s { integrations := some items }).integrations.elastic =
      match alookup items.reverse "elastic" with
      | some c => validateCred c
      | none => ({} : IntegrationCredentials)) ∧
    ((update_settings s { integrations := some items }).integrations.microsoft_xdr =
      match alookup items.reverse "microsoft_xdr" with
      | some c => validateCred c
      | none => ({} : IntegrationCredentials)) ∧
    (update_settings s { integrations := some items }).integrations.extras = [] := by
  simp only [update_settings, buildIntegrations, updStep_foldl]
  exact ⟨trivial, trivial, trivial, trivial⟩

/-- Claim C5, counterexample: updating only `elastic` resets the Splunk
record to its defaults — the prior Splunk hostname is NOT retained. -/
theorem integration_update_counterexample :
    (update_settings sFull
        { integrations := some [("elastic", { api_key := some "k2" })] }
      ).integrations.splunk.hostname ≠ sFull.integrations.splunk.hostname := by
  decide

/-- Claim C5, witness: the amended theorem evaluated on a concrete update. -/
theorem integration_update_witness :
    (update_settings sFull
        { integrations := some [("elastic", { api_key := some "k2" })] }
      ).integrations.elastic = validateCred { api_key := some "k2" } := by
  have h := integration_update_amended sFull [("elastic", { api_key := some "k2" })]
  exact h.2.1

/-- Claim C10: an `integrations` entry keyed by an unknown name is silently
dropped by `update_settings` — the result is identical to the same update
with that entry removed, and no error is raised. -/
theorem unknown_integration_dropped (s : DetectIQSettings)
    (pre post : List (String × CredDict)) (name : String) (c : CredDict)
    (h : ¬ name ∈ knownIntegrationNames) :
    update_settings s { integrations := some (pre ++ (name, c) :: post) } =
      update_settings s { integrations := some (pre ++ post) } := by
  have h1 : ¬ name = "elastic" := fun hh => h (by simp [knownIntegrationNames, hh])
  have h2 : ¬ name = "splunk" := fun hh => h (by simp [knownIntegrationNames, hh])
  have h3 : ¬ name = "microsoft_xdr" := fun hh => h (by simp [knownIntegrationNames, hh])
  simp [update_settings, buildIntegrations, List.foldl_append, List.foldl_cons,
    updStep, h1, h2, h3]

/-- Claim C10, witness: a concrete unknown integration name is dropped. -/
theorem unknown_integration_dropped_witness :
    update_settings sFull
        { integrations := some [("custom", { hostname := some "h" })] } =
      update_settings sFull { integrations := some [] } := by
  exact unknown_integration_dropped sFull [] [] "custom" { hostname := some "h" }
    (by decide)

/-- Claim C7 (amended): the three keys `sigma`, `yara`, `snort` are present
in both directory mappings whenever neither the file nor the update partial
supplies a replacement mapping: a load with no settings file yields all three
in both mappings, and an update that does not pass the mapping leaves it
unchanged. A mapping supplied by the file or the partial replaces the
defaults wholesale, so keys missing from it stay missing. -/
theorem three_key_invariant_amended :
    (∀ env kr t, load_settings env kr .absent = .ok t →
      hasThreeKeys t.rule_directories ∧ hasThreeKeys t.vector_store_directories) ∧
    (∀ s p, p.rule_directories = none →
      (update_settings s p).rule_directories = s.rule_directories) ∧
    (∀ s p, p.vector_store_directories = none →
      (update_settings s p).vector_store_directories = s.vector_store_directories) := by
  refine ⟨?_, ?_, ?_⟩
  · intro env kr t hload
    by_cases hmem : "openai_api_key" ∈ kr.failing
    · simp [load_settings, Keyring.getPassword, hmem] at hload
    · simp only [load_settings, Keyring.getPassword, if_neg hmem,
        Except.ok.injEq] at hload
      subst hload
      constructor <;>
        simp [validateSettings, initialDict, hasThreeKeys, alookup]
  · intro s p hp
    simp [update_settings, hp]
  · intro s p hp
    simp [update_settings, hp]

/-- Claim C7, counterexample: an update that passes a `rule_directories`
mapping holding only `sigma` produces a settings object whose
`rule_directories` has no `yara` key — the three-key invariant fails. -/
theorem three_key_invariant_counterexample :
    alookup (update_settings defaultSettings
        { rule_directories := some [("sigma", "x")] }).rule_directories "yara"
      = none := by
  decide

/-- Claim C7, witness: the amended theorem evaluated at a concrete load and a
concrete mapping-free update. -/
theorem three_key_invariant_witness :
    hasThreeKeys (validateSettings (initialDict {} none)).rule_directories ∧
    (update_settings sFull { model := some "m" }).rule_directories =
      sFull.rule_directories := by
  have h := three_key_invariant_amended
  exact ⟨(h.1 {} {} _ rfl).1, h.2.1 sFull { model := some "m" } rfl⟩

/-- Claim C3 (amended): provided the settings file contributes no
`openai_api_key` entry (here: the file is absent) and the secret store
backend works, a stored non-empty secret K wins over the environment and the
default, and with no stored secret a set environment value E wins. When the
file does supply the key — as every file written by `save_settings` does,
with the empty string — the file value overrides the stored secret. -/
theorem openai_key_precedence (env : Env) (store : List (String × String))
    (t : DetectIQSettings)
    (hload : load_settings env { store := store, failing := [] } .absent = .ok t) :
    (∀ k, alookup store "openai_api_key" = some k → k ≠ "" →
      t.openai_api_key = k) ∧
    (alookup store "openai_api_key" = none →
      ∀ e, env.OPENAI_API_KEY = some e → t.openai_api_key = e) := by
  simp only [load_settings, Keyring.getPassword, List.not_mem_nil, if_false,
    Except.ok.injEq] at hload
  subst hload
  constructor
  · intro k hk hne
    simp [validateSettings, initialDict, pyOr, hk, hne]
  · intro hk e he
    simp [validateSettings, initialDict, pyOr, hk, he]

/-- Claim C3, counterexample: with a non-empty stored secret, a set
environment variable, and the settings file that `save_settings` itself
writes (holding `openai_api_key = ""`), `load` yields the empty string from
the file — not the stored secret K. -/
theorem openai_key_precedence_counterexample :
    alookup [("openai_api_key", "sk-secret")] "openai_api_key" = some "sk-secret" ∧
    (load_settings { OPENAI_API_KEY := some "sk-env" }
        { store := [("openai_api_key", "sk-secret")] }
        (.present { openai_api_key := some "" })).map
      (fun t => t.openai_api_key) = .ok "" ∧
    ("" : String) ≠ "sk-secret" := by
  refine ⟨rfl, rfl, by decide⟩

/-- Claim C3, witness: the amended precedence theorem evaluated on a concrete
file-less load: the stored secret beats the set environment variable. -/
theorem openai_key_precedence_witness :
    loadedNoFile.openai_api_key = "sk-secret" := by
  have h := openai_key_precedence { OPENAI_API_KEY := some "sk-env" }
    [("openai_api_key", "sk-secret")] loadedNoFile (by decide)
  exact h.1 "sk-secret" (by decide) (by decide)

/-- Claim C4: with a working secret store backend, a load over a corrupt
(non-JSON) settings file does not raise: it returns exactly what a load with
no settings file returns — the validated pre-file-merge dict built from the
hard-coded defaults, the environment, and the secret-store OpenAI key. -/
theorem corrupt_file_resilience (env : Env) (kr : Keyring)
    (h : ¬ "openai_api_key" ∈ kr.failing) :
    load_settings env kr .corrupt = load_settings env kr .absent ∧
    load_settings env kr .corrupt =
      .ok (validateSettings (initialDict env (alookup kr.store "openai_api_key"))) := by
  have hk : kr.getPassword "openai_api_key" = .ok (alookup kr.store "openai_api_key") := by
    simp [Keyring.getPassword, h]
  exact ⟨by simp [load_settings, hk], by simp [load_settings, hk]⟩

/-- Claim C4, witness: the resilience theorem evaluated on a concrete
environment and store. -/
theorem corrupt_file_resilience_witness :
    load_settings { DETECTIQ_MODEL := some "gpt-4o" }
        { store := [("openai_api_key", "sk-k")] } .corrupt =
      load_settings { DETECTIQ_MODEL := some "gpt-4o" }
        { store := [("openai_api_key", "sk-k")] } .absent := by
  exact (corrupt_file_resilience { DETECTIQ_MODEL := some "gpt-4o" }
    { store := [("openai_api_key", "sk-k")] } (by decide)).1

/-- Claim C9, counterexample: when the secret store backend raises on the
`openai_api_key` lookup, `_load_settings` propagates the error — the lookup
at the top of the defaults block is outside the try/except. -/
theorem secret_store_load_counterexample :
    load_settings {} { failing := ["openai_api_key"] } .absent = .error () := by
  decide

/-- Claim C9 (amended): secret-store failures on the integration lookups
inside the file-merge block are swallowed (load still returns a settings
object, the failed lookups acting as "no stored secret" for the fields not
yet injected), but the `openai_api_key` lookup is unprotected: a backend
error there propagates out of every load, whatever the file state. -/
theorem secret_store_load_amended (env : Env) (kr : Keyring) (file : FileState) :
    (¬ "openai_api_key" ∈ kr.failing → load_settings env kr file ≠ .error ()) ∧
    ("openai_api_key" ∈ kr.failing → load_settings env kr file = .error ()) := by
  constructor
  · intro h
    have hk : kr.getPassword "openai_api_key" =
        .ok (alookup kr.store "openai_api_key") := by
      simp [Keyring.getPassword, h]
    cases file <;> simp [load_settings, hk]
  · intro h
    have hk : kr.getPassword "openai_api_key" = .error () := by
      simp [Keyring.getPassword, h]
    cases file <;> simp [load_settings, hk]

/-- Claim C9, witness: a backend failing only on `splunk_password` does not
make a file-backed load raise; one failing on `openai_api_key` does. -/
theorem secret_store_load_amended_witness :
    load_settings {} { failing := ["splunk_password"] } (.present {}) ≠ .error () ∧
    load_settings {} { failing := ["openai_api_key"] } (.present {}) = .error () := by
  exact ⟨(secret_store_load_amended {} { failing := ["splunk_password"] }
      (.present {})).1 (by decide),
    (secret_store_load_amended {} { failing := ["openai_api_key"] }
      (.present {})).2 (by decide)⟩

/-- Claim C8: a successful `save_settings` leaves the in-memory settings
object of the manager completely unchanged — the secrets keep their values
in memory — while the file it writes is the redacted copy: every sensitive
field present in that file is the empty string. -/
theorem save_inmemory_frame (st st' : ManagerState)
    (h : saveStep st = .ok st') :
    st'.settings = st.settings ∧
    st'.file = .present (savedFile st.settings) ∧
    (savedFile st.settings).openai_api_key = some "" ∧
    (∀ v, fileFieldOf (savedFile st.settings) "splunk" "password" = some v →
      v = "") ∧
    (∀ v, fileFieldOf (savedFile st.settings) "elastic" "api_key" = some v →
      v = "") ∧
    (∀ v, fileFieldOf (savedFile st.settings) "microsoft_xdr" "client_secret" =
      some v → v = "") := by
  have hfile : st'.settings = st.settings ∧ st'.file = .present (savedFile st.settings) := by
    unfold saveStep runSave at h
    cases hf : (saveSecrets st.settings).foldlM
        (fun k nv => k.setPassword nv.1 nv.2) st.keyring with
    | error e => rw [hf] at h; cases h
    | ok kr2 =>
      rw [hf] at h
      simp only [Except.ok.injEq] at h
      subst h
      exact ⟨rfl, rfl⟩
  refine ⟨hfile.1, hfile.2, ?_, ?_, ?_, ?_⟩
  · by_cases ho : st.settings.openai_api_key = "" <;> simp [savedFile, ho]
  · intro v hv
    rcases hp : st.settings.integrations.splunk.password with _ | w
    · simp [fileFieldOf, savedFile, redactedIntegrations, dumpIntegrations,
        redactCred, dumpCred, credField, alookup, hp] at hv
    · by_cases hw : w = "" <;>
        simp_all [fileFieldOf, savedFile, redactedIntegrations, dumpIntegrations,
          redactCred, dumpCred, credField, alookup, hp, hw]
  · intro v hv
    rcases hp : st.settings.integrations.elastic.api_key with _ | w
    · simp [fileFieldOf, savedFile, redactedIntegrations, dumpIntegrations,
        redactCred, dumpCred, credField, alookup, hp] at hv
    · by_cases hw : w = "" <;>
        simp_all [fileFieldOf, savedFile, redactedIntegrations, dumpIntegrations,
          redactCred, dumpCred, credField, alookup, hp, hw]
  · intro v hv
    rcases hp : st.settings.integrations.microsoft_xdr.client_secret with _ | w
    · simp [fileFieldOf, savedFile, redactedIntegrations, dumpIntegrations,
        redactCred, dumpCred, credField, alookup, hp] at hv
    · by_cases hw : w = "" <;>
        simp_all [fileFieldOf, savedFile, redactedIntegrations, dumpIntegrations,
          redactCred, dumpCred, credField, alookup, hp, hw]

/-- Claim C8, witness: the frame theorem evaluated at a concrete manager
state whose settings hold non-empty secrets. -/
theorem save_inmemory_frame_witness :
    stFullSaved.settings = stFull.settings := by
  exact (save_inmemory_frame stFull stFullSaved (by decide)).1

theorem foldlM_setPassword (l : List (String × String)) (st : List (String × String)) :
    l.foldlM (fun k nv => k.setPassword nv.1 nv.2)
        ({ store := st, failing := [] } : Keyring) =
      .ok { store := l.reverse ++ st, failing := [] } := by
  induction l generalizing st with
  | nil => rfl
  | cons p t ih =>
    rcases p with ⟨n, v⟩
    have hstep : (({ store := st, failing := [] } : Keyring).setPassword n v) =
        .ok { store := (n, v) :: st, failing := [] } := by
      simp [Keyring.setPassword]
    rw [List.foldlM_cons, hstep]
    show t.foldlM _ ({ store := (n, v) :: st, failing := [] } : Keyring) = _
    rw [ih]
    simp

theorem runSave_ok (s : DetectIQSettings) (store : List (String × String)) :
    runSave { store := store, failing := [] } s =
      .ok ({ store := (saveSecrets s).reverse ++ store, failing := [] },
        savedFile s) := by
  unfold runSave
  rw [foldlM_setPassword]

theorem alookup_of_mem_uniq {v : String} {l : List (String × String)}
    (r : List (String × String)) {k : String}
    (hmem : (k, v) ∈ l) (huniq : ∀ p ∈ l, p.1 = k → p.2 = v) :
    alookup (l ++ r) k = some v := by
  induction l with
  | nil => cases hmem
  | cons p t ih =>
    rcases p with ⟨pk, pv⟩
    by_cases hk : pk = k
    · have hpv : pv = v := huniq (pk, pv) (by simp) hk
      subst hpv
      simp [alookup, hk]
    · have hmem' : (k, v) ∈ t := by
        rcases List.mem_cons.mp hmem with heq | h2
        · cases heq; exact absurd rfl hk
        · exact h2
      simp only [List.cons_append, alookup, if_neg hk]
      exact ih hmem' (fun q hq hq1 => huniq q (by simp [hq]) hq1)

theorem notMemKnown {n : String} (h : ¬ n ∈ knownIntegrationNames) :
    ¬ n = "elastic" ∧ ¬ n = "splunk" ∧ ¬ n = "microsoft_xdr" := by
  refine ⟨fun hh => h ?_, fun hh => h ?_, fun hh => h ?_⟩ <;>
    simp [knownIntegrationNames, hh]

theorem redactCred_unknown (n : String) (c : CredDict)
    (h : ¬ n ∈ knownIntegrationNames) : redactCred n c = ([], c) := by
  obtain ⟨h1, h2, h3⟩ := notMemKnown h
  simp [redactCred, h1, h2, h3]

theorem intSecrets_cons (nc : String × CredDict) (t : List (String × CredDict)) :
    intSecrets (nc :: t) = (redactCred nc.1 nc.2).1 ++ intSecrets t := by
  simp [intSecrets]

theorem intSecrets_extras (ex : List (String × CredDict))
    (h : ∀ kv ∈ ex, ¬ kv.1 ∈ knownIntegrationNames) : intSecrets ex = [] := by
  induction ex with
  | nil => rfl
  | cons kv t ih =>
    rw [intSecrets_cons, redactCred_unknown kv.1 kv.2 (h kv (by simp))]
    simpa using ih (fun q hq => h q (by simp [hq]))

theorem saveSecrets_eq (s : DetectIQSettings) (hwf : s.integrations.wfExtras) :
    saveSecrets s =
      (if s.openai_api_key = "" then []
       else [("openai_api_key", s.openai_api_key)]) ++
        ((redactCred "elastic" (dumpCred s.integrations.elastic)).1 ++
          ((redactCred "splunk" (dumpCred s.integrations.splunk)).1 ++
            (redactCred "microsoft_xdr" (dumpCred s.integrations.microsoft_xdr)).1)) := by
  have hwf' : ∀ kv ∈ s.integrations.extras, ¬ kv.1 ∈ knownIntegrationNames := hwf
  unfold saveSecrets dumpIntegrations
  rw [intSecrets_cons, intSecrets_cons, intSecrets_cons, intSecrets_extras _ hwf']
  simp

theorem redactCred_elastic_mem (c : CredDict) :
    ∀ p ∈ (redactCred "elastic" c).1,
      p.1 = "elastic_api_key" ∧ c.api_key = some p.2 := by
  rcases h : c.api_key with _ | w
  · simp [redactCred, h]
  · by_cases hw : w = "" <;> simp [redactCred, h, hw]

theorem redactCred_splunk_mem (c : CredDict) :
    ∀ p ∈ (redactCred "splunk" c).1,
      p.1 = "splunk_password" ∧ c.password = some p.2 := by
  rcases h : c.password with _ | w
  · simp [redactCred, h]
  · by_cases hw : w = "" <;> simp [redactCred, h, hw]

theorem redactCred_xdr_mem (c : CredDict) :
    ∀ p ∈ (redactCred "microsoft_xdr" c).1,
      p.1 = "microsoft_xdr_client_secret" ∧ c.client_secret = some p.2 := by
  rcases h : c.client_secret with _ | w
  · simp [redactCred, h]
  · by_cases hw : w = "" <;> simp [redactCred, h, hw]

theorem mem_openai_part {p : String × String} {o : String}
    (h : p ∈ (if o = "" then [] else [(("openai_api_key" : String), o)])) :
    p.1 = "openai_api_key" ∧ p.2 = o := by
  by_cases ho : o = ""
  · rw [if_pos ho] at h; cases h
  · rw [if_neg ho] at h
    simp at h
    simp [h]

theorem store_after_save_openai (s : DetectIQSettings)
    (store : List (String × String)) (hwf : s.integrations.wfExtras)
    (ho : s.openai_api_key ≠ "") :
    alookup ((saveSecrets s).reverse ++ store) "openai_api_key" =
      some s.openai_api_key := by
  have hmem : ("openai_api_key", s.openai_api_key) ∈ saveSecrets s := by
    rw [saveSecrets_eq s hwf]
    simp [ho]
  have huniq : ∀ p ∈ saveSecrets s, p.1 = "openai_api_key" →
      p.2 = s.openai_api_key := by
    intro p hpmem hk
    rw [saveSecrets_eq s hwf] at hpmem
    rcases List.mem_append.mp hpmem with h1 | h23
    · exact (mem_openai_part h1).2
    · rcases List.mem_append.mp h23 with h2 | h34
      · rw [(redactCred_elastic_mem _ p h2).1] at hk; exact absurd hk (by decide)
      · rcases List.mem_append.mp h34 with h3 | h4
        · rw [(redactCred_splunk_mem _ p h3).1] at hk; exact absurd hk (by decide)
        · rw [(redactCred_xdr_mem _ p h4).1] at hk; exact absurd hk (by decide)
  exact alookup_of_mem_uniq store (List.mem_reverse.mpr hmem)
    (fun p hp2 => huniq p (List.mem_reverse.mp hp2))

theorem store_after_save_splunk (s : DetectIQSettings)
    (store : List (String × String)) (hwf : s.integrations.wfExtras)
    (v : String) (hp : s.integrations.splunk.password = some v) (hv : v ≠ "") :
    alookup ((saveSecrets s).reverse ++ store) "splunk_password" = some v := by
  have hr : (redactCred "splunk" (dumpCred s.integrations.splunk)).1 =
      [("splunk_password", v)] := by
    simp [redactCred, dumpCred, hp, hv]
  have hmem : ("splunk_password", v) ∈ saveSecrets s := by
    rw [saveSecrets_eq s hwf, hr]
    simp
  have huniq : ∀ p ∈ saveSecrets s, p.1 = "splunk_password" → p.2 = v := by
    intro p hpmem hk
    rw [saveSecrets_eq s hwf] at hpmem
    rcases List.mem_append.mp hpmem with h1 | h23
    · rw [(mem_openai_part h1).1] at hk; exact absurd hk (by decide)
    · rcases List.mem_append.mp h23 with h2 | h34
      · rw [(redactCred_elastic_mem _ p h2).1] at hk; exact absurd hk (by decide)
      · rcases List.mem_append.mp h34 with h3 | h4
        · have h5 := (redactCred_splunk_mem _ p h3).2
          rw [show (dumpCred s.integrations.splunk).password =
            s.integrations.splunk.password from rfl, hp] at h5
          exact (Option.some.injEq _ _ ▸ h5).symm
        · rw [(redactCred_xdr_mem _ p h4).1] at hk; exact absurd hk (by decide)
  exact alookup_of_mem_uniq store (List.mem_reverse.mpr hmem)
    (fun p hp2 => huniq p (List.mem_reverse.mp hp2))

theorem store_after_save_elastic (s : DetectIQSettings)
    (store : List (String × String)) (hwf : s.integrations.wfExtras)
    (v : String) (hp : s.integrations.elastic.api_key = some v) (hv : v ≠ "") :
    alookup ((saveSecrets s).reverse ++ store) "elastic_api_key" = some v := by
  have hr : (redactCred "elastic" (dumpCred s.integrations.elastic)).1 =
      [("elastic_api_key", v)] := by
    simp [redactCred, dumpCred, hp, hv]
  have hmem : ("elastic_api_key", v) ∈ saveSecrets s := by
    rw [saveSecrets_eq s hwf, hr]
    simp
  have huniq : ∀ p ∈ saveSecrets s, p.1 = "elastic_api_key" → p.2 = v := by
    intro p hpmem hk
    rw [saveSecrets_eq s hwf] at hpmem
    rcases List.mem_append.mp hpmem with h1 | h23
    · rw [(mem_openai_part h1).1] at hk; exact absurd hk (by decide)
    · rcases List.mem_append.mp h23 with h2 | h34
      · have h5 := (redactCred_elastic_mem _ p h2).2
        rw [show (dumpCred s.integrations.elastic).api_key =
          s.integrations.elastic.api_key from rfl, hp] at h5
        exact (Option.some.injEq _ _ ▸ h5).symm
      · rcases List.mem_append.mp h34 with h3 | h4
        · rw [(redactCred_splunk_mem _ p h3).1] at hk; exact absurd hk (by decide)
        · rw [(redactCred_xdr_mem _ p h4).1] at hk; exact absurd hk (by decide)
  exact alookup_of_mem_uniq store (List.mem_reverse.mpr hmem)
    (fun p hp2 => huniq p (List.mem_reverse.mp hp2))

theorem store_after_save_xdr (s : DetectIQSettings)
    (store : List (String × String)) (hwf : s.integrations.wfExtras)
    (v : String) (hp : s.integrations.microsoft_xdr.client_secret = some v)
    (hv : v ≠ "") :
    alookup ((saveSecrets s).reverse ++ store) "microsoft_xdr_client_secret" =
      some v := by
  have hr : (redactCred "microsoft_xdr" (dumpCred s.integrations.microsoft_xdr)).1 =
      [("microsoft_xdr_client_secret", v)] := by
    simp [redactCred, dumpCred, hp, hv]
  have hmem : ("microsoft_xdr_client_secret", v) ∈ saveSecrets s := by
    rw [saveSecrets_eq s hwf, hr]
    simp
  have huniq : ∀ p ∈ saveSecrets s, p.1 = "microsoft_xdr_client_secret" →
      p.2 = v := by
    intro p hpmem hk
    rw [saveSecrets_eq s hwf] at hpmem
    rcases List.mem_append.mp hpmem with h1 | h23
    · rw [(mem_openai_part h1).1] at hk; exact absurd hk (by decide)
    · rcases List.mem_append.mp h23 with h2 | h34
      · rw [(redactCred_elastic_mem _ p h2).1] at hk; exact absurd hk (by decide)
      · rcases List.mem_append.mp h34 with h3 | h4
        · rw [(redactCred_splunk_mem _ p h3).1] at hk; exact absurd hk (by decide)
        · have h5 := (redactCred_xdr_mem _ p h4).2
          rw [show (dumpCred s.integrations.microsoft_xdr).client_secret =
            s.integrations.microsoft_xdr.client_secret from rfl, hp] at h5
          exact (Option.some.injEq _ _ ▸ h5).symm
  exact alookup_of_mem_uniq store (List.mem_reverse.mpr hmem)
    (fun p hp2 => huniq p (List.mem_reverse.mp hp2))

theorem validateCred_set_api_key (c : CredDict) (o : Option String) :
    validateCred { c with api_key := o } = { validateCred c with api_key := o } := rfl

theorem validateCred_set_password (c : CredDict) (o : Option String) :
    validateCred { c with password := o } = { validateCred c with password := o } := rfl

theorem validateCred_set_client_secret (c : CredDict) (o : Option String) :
    validateCred { c with client_secret := o } =
      { validateCred c with client_secret := o } := rfl

theorem injectFields_elastic (kr : Keyring) (hkr : kr.failing = []) (c : CredDict) :
    ∃ o : Option String,
      injectFields kr "elastic" c ["api_key"] = .ok { c with api_key := o } := by
  have hok : kr.getPassword "elastic_api_key" =
      .ok (alookup kr.store "elastic_api_key") := by
    simp [Keyring.getPassword, hkr]
  rcases hu : alookup kr.store "elastic_api_key" with _ | w
  · refine ⟨c.api_key, ?_⟩
    show injectFields kr "elastic" c ["api_key"] = .ok c
    simp [injectFields, hok, hu]
  · by_cases hw : w = ""
    · refine ⟨c.api_key, ?_⟩
      show injectFields kr "elastic" c ["api_key"] = .ok c
      simp [injectFields, hok, hu, hw]
    · exact ⟨some w, by simp [injectFields, hok, hu, hw, setField]⟩

theorem injectFields_splunk (kr : Keyring) (hkr : kr.failing = []) (c : CredDict) :
    ∃ o : Option String,
      injectFields kr "splunk" c ["password"] = .ok { c with password := o } := by
  have hok : kr.getPassword "splunk_password" =
      .ok (alookup kr.store "splunk_password") := by
    simp [Keyring.getPassword, hkr]
  rcases hu : alookup kr.store "splunk_password" with _ | w
  · refine ⟨c.password, ?_⟩
    show injectFields kr "splunk" c ["password"] = .ok c
    simp [injectFields, hok, hu]
  · by_cases hw : w = ""
    · refine ⟨c.password, ?_⟩
      show injectFields kr "splunk" c ["password"] = .ok c
      simp [injectFields, hok, hu, hw]
    · exact ⟨some w, by simp [injectFields, hok, hu, hw, setField]⟩

theorem injectFields_xdr (kr : Keyring) (hkr : kr.failing = []) (c : CredDict) :
    ∃ o : Option String,
      injectFields kr "microsoft_xdr" c ["client_secret"] =
        .ok { c with client_secret := o } := by
  have hok : kr.getPassword "microsoft_xdr_client_secret" =
      .ok (alookup kr.store "microsoft_xdr_client_secret") := by
    simp [Keyring.getPassword, hkr]
  rcases hu : alookup kr.store "microsoft_xdr_client_secret" with _ | w
  · refine ⟨c.client_secret, ?_⟩
    show injectFields kr "microsoft_xdr" c ["client_secret"] = .ok c
    simp [injectFields, hok, hu]
  · by_cases hw : w = ""
    · refine ⟨c.client_secret, ?_⟩
      show injectFields kr "microsoft_xdr" c ["client_secret"] = .ok c
      simp [injectFields, hok, hu, hw]
    · exact ⟨some w, by simp [injectFields, hok, hu, hw, setField]⟩

theorem injectFields_unknown (kr : Keyring) (hkr : kr.failing = [])
    (n : String) (c : CredDict) (h : ¬ n ∈ knownIntegrationNames) :
    injectFields kr n c (SENSITIVE_FIELDS n) = .ok c := by
  obtain ⟨h1, h2, h3⟩ := notMemKnown h
  by_cases hg : n = "global"
  · subst hg
    have hok : kr.getPassword "global_openai_api_key" =
        .ok (alookup kr.store "global_openai_api_key") := by
      simp [Keyring.getPassword, hkr]
    rcases hu : alookup kr.store "global_openai_api_key" with _ | w
    · simp [SENSITIVE_FIELDS, injectFields, hok, hu]
    · by_cases hw : w = "" <;>
        simp [SENSITIVE_FIELDS, injectFields, hok, hu, hw, setField]
  · simp [SENSITIVE_FIELDS, h1, h2, h3, hg, injectFields]

theorem injectSecrets_extras (kr : Keyring) (hkr : kr.failing = [])
    (ex : List (String × CredDict))
    (hex : ∀ kv ∈ ex, ¬ kv.1 ∈ knownIntegrationNames) :
    injectSecrets kr ex = ex := by
  induction ex with
  | nil => rfl
  | cons kv t ih =>
    rcases kv with ⟨n, c⟩
    have hu := injectFields_unknown kr hkr n c (hex (n, c) (by simp))
    simp only [injectSecrets, hu]
    rw [ih (fun q hq => hex q (by simp [hq]))]

theorem injectSecrets_eq_cons (kr : Keyring) (hkr : kr.failing = [])
    (cE cS cX : CredDict) (ex : List (String × CredDict))
    (hex : ∀ kv ∈ ex, ¬ kv.1 ∈ knownIntegrationNames) :
    ∃ oE oS oX : Option String,
      injectSecrets kr
          (("elastic", cE) :: ("splunk", cS) :: ("microsoft_xdr", cX) :: ex) =
        ("elastic", { cE with api_key := oE }) ::
          ("splunk", { cS with password := oS }) ::
            ("microsoft_xdr", { cX with client_secret := oX }) :: ex := by
  obtain ⟨oE, hE⟩ := injectFields_elastic kr hkr cE
  obtain ⟨oS, hS⟩ := injectFields_splunk kr hkr cS
  obtain ⟨oX, hX⟩ := injectFields_xdr kr hkr cX
  refine ⟨oE, oS, oX, ?_⟩
  have s1 : SENSITIVE_FIELDS "elastic" = ["api_key"] := rfl
  have s2 : SENSITIVE_FIELDS "splunk" = ["password"] := rfl
  have s3 : SENSITIVE_FIELDS "microsoft_xdr" = ["client_secret"] := rfl
  simp only [injectSecrets, s1, s2, s3, hE, hS, hX]
  rw [injectSecrets_extras kr hkr ex hex]

theorem map_redact_extras (ex : List (String × CredDict))
    (hex : ∀ kv ∈ ex, ¬ kv.1 ∈ knownIntegrationNames) :
    ex.map (fun nc => (nc.1, (redactCred nc.1 nc.2).2)) = ex := by
  induction ex with
  | nil => rfl
  | cons kv t ih =>
    rw [List.map_cons, redactCred_unknown kv.1 kv.2 (hex kv (by simp)),
      ih (fun q hq => hex q (by simp [hq]))]

theorem redactedIntegrations_dump (i : Integrations) (hwf : i.wfExtras) :
    redactedIntegrations (dumpIntegrations i) =
      ("elastic", (redactCred "elastic" (dumpCred i.elastic)).2) ::
        ("splunk", (redactCred "splunk" (dumpCred i.splunk)).2) ::
          ("microsoft_xdr", (redactCred "microsoft_xdr" (dumpCred i.microsoft_xdr)).2) ::
            i.extras := by
  have hwf' : ∀ kv ∈ i.extras, ¬ kv.1 ∈ knownIntegrationNames := hwf
  simp only [redactedIntegrations, dumpIntegrations, List.map_cons]
  rw [map_redact_extras i.extras hwf']

theorem validateIntegrations_cons3 (cE cS cX : CredDict)
    (ex : List (String × CredDict))
    (hex : ∀ kv ∈ ex, ¬ kv.1 ∈ knownIntegrationNames) :
    validateIntegrations
        (("elastic", cE) :: ("splunk", cS) :: ("microsoft_xdr", cX) :: ex) =
      { elastic := validateCred cE, splunk := validateCred cS,
        microsoft_xdr := validateCred cX, extras := ex } := by
  have hf : ex.filter (fun kv => ¬ kv.1 ∈ knownIntegrationNames) = ex := by
    rw [List.filter_eq_self]
    intro kv hkv
    simpa using hex kv hkv
  have he : ("elastic" : String) ∈ knownIntegrationNames := by decide
  have hs : ("splunk" : String) ∈ knownIntegrationNames := by decide
  have hx : ("microsoft_xdr" : String) ∈ knownIntegrationNames := by decide
  simp [validateIntegrations, alookup, List.filter_cons, he, hs, hx, hf]
  exact fun a b hab => hex (a, b) hab

theorem redactCred_elastic_snd (c : CredDict) :
    ∃ o : Option String, (redactCred "elastic" c).2 = { c with api_key := o } := by
  rcases h : c.api_key with _ | w
  · refine ⟨c.api_key, ?_⟩
    show (redactCred "elastic" c).2 = c
    simp [redactCred, h]
  · by_cases hw : w = ""
    · refine ⟨c.api_key, ?_⟩
      show (redactCred "elastic" c).2 = c
      simp [redactCred, h, hw]
    · exact ⟨some "", by simp [redactCred, h, hw]⟩

theorem redactCred_splunk_snd (c : CredDict) :
    ∃ o : Option String, (redactCred "splunk" c).2 = { c with password := o } := by
  rcases h : c.password with _ | w
  · refine ⟨c.password, ?_⟩
    show (redactCred "splunk" c).2 = c
    simp [redactCred, h]
  · by_cases hw : w = ""
    · refine ⟨c.password, ?_⟩
      show (redactCred "splunk" c).2 = c
      simp [redactCred, h, hw]
    · exact ⟨some "", by simp [redactCred, h, hw]⟩

theorem redactCred_xdr_snd (c : CredDict) :
    ∃ o : Option String,
      (redactCred "microsoft_xdr" c).2 = { c with client_secret := o } := by
  rcases h : c.client_secret with _ | w
  · refine ⟨c.client_secret, ?_⟩
    show (redactCred "microsoft_xdr" c).2 = c
    simp [redactCred, h]
  · by_cases hw : w = ""
    · refine ⟨c.client_secret, ?_⟩
      show (redactCred "microsoft_xdr" c).2 = c
      simp [redactCred, h, hw]
    · exact ⟨some "", by simp [redactCred, h, hw]⟩

/-- Claim C2: a `save_settings` followed by `_load_settings` (against the
file and keyring the save produced, under a working backend) reproduces every
non-sensitive part of S exactly — the directory mappings, log level, model,
and every integration field outside the three sensitive slots, extras
included — and every non-empty sensitive value of S is recoverable from the
secret store under its secret name (the loaded `openai_api_key` itself comes
from the redacted file, not from S). -/
theorem save_load_round_trip (s : DetectIQSettings)
    (store : List (String × String)) (env : Env) (kr' : Keyring)
    (fs : FileSettings) (t : DetectIQSettings)
    (hwf : s.integrations.wfExtras)
    (hsave : runSave { store := store, failing := [] } s = .ok (kr', fs))
    (hload : load_settings env kr' (.present fs) = .ok t) :
    t.rule_directories = s.rule_directories ∧
    t.vector_store_directories = s.vector_store_directories ∧
    t.log_level = s.log_level ∧
    t.model = s.model ∧
    nonSensitiveEqIntegrations t.integrations s.integrations ∧
    (s.openai_api_key ≠ "" →
      kr'.getPassword "openai_api_key" = .ok (some s.openai_api_key)) ∧
    (∀ v, s.integrations.splunk.password = some v → v ≠ "" →
      kr'.getPassword "splunk_password" = .ok (some v)) ∧
    (∀ v, s.integrations.elastic.api_key = some v → v ≠ "" →
      kr'.getPassword "elastic_api_key" = .ok (some v)) ∧
    (∀ v, s.integrations.microsoft_xdr.client_secret = some v → v ≠ "" →
      kr'.getPassword "microsoft_xdr_client_secret" = .ok (some v)) := by
  have hrs := hsave.symm.trans (runSave_ok s store)
  rw [Except.ok.injEq, Prod.mk.injEq] at hrs
  obtain ⟨hkr, hfs⟩ := hrs
  subst hkr
  subst hfs
  have hwf' : ∀ kv ∈ s.integrations.extras, ¬ kv.1 ∈ knownIntegrationNames := hwf
  obtain ⟨o1, hE1⟩ := redactCred_elastic_snd (dumpCred s.integrations.elastic)
  obtain ⟨o2, hS1⟩ := redactCred_splunk_snd (dumpCred s.integrations.splunk)
  obtain ⟨o3, hX1⟩ := redactCred_xdr_snd (dumpCred s.integrations.microsoft_xdr)
  have hred : redactedIntegrations (dumpIntegrations s.integrations) =
      ("elastic", { dumpCred s.integrations.elastic with api_key := o1 }) ::
        ("splunk", { dumpCred s.integrations.splunk with password := o2 }) ::
          ("microsoft_xdr",
            { dumpCred s.integrations.microsoft_xdr with client_secret := o3 }) ::
            s.integrations.extras := by
    rw [redactedIntegrations_dump s.integrations hwf, hE1, hS1, hX1]
  obtain ⟨oE, oS, oX, hinj⟩ := injectSecrets_eq_cons
    (Keyring.mk ((saveSecrets s).reverse ++ store) []) rfl
    { dumpCred s.integrations.elastic with api_key := o1 }
    { dumpCred s.integrations.splunk with password := o2 }
    { dumpCred s.integrations.microsoft_xdr with client_secret := o3 }
    s.integrations.extras hwf'
  have hc1 : ({ { dumpCred s.integrations.elastic with api_key := o1 }
      with api_key := oE } : CredDict) =
      { dumpCred s.integrations.elastic with api_key := oE } := rfl
  have hc2 : ({ { dumpCred s.integrations.splunk with password := o2 }
      with password := oS } : CredDict) =
      { dumpCred s.integrations.splunk with password := oS } := rfl
  have hc3 : ({ { dumpCred s.integrations.microsoft_xdr with client_secret := o3 }
      with client_secret := oX } : CredDict) =
      { dumpCred s.integrations.microsoft_xdr with client_secret := oX } := rfl
  rw [hc1, hc2, hc3] at hinj
  have hget : (Keyring.mk ((saveSecrets s).reverse ++ store) []).getPassword
      "openai_api_key" =
      .ok (alookup ((saveSecrets s).reverse ++ store) "openai_api_key") := by
    simp [Keyring.getPassword]
  unfold load_settings at hload
  rw [hget] at hload
  simp only [Except.ok.injEq] at hload
  subst hload
  refine ⟨?_, ?_, ?_, ?_, ?_, ?_, ?_, ?_, ?_⟩
  · simp [validateSettings, mergeFile, savedFile]
  · simp [validateSettings, mergeFile, savedFile]
  · simp [validateSettings, mergeFile, savedFile]
  · simp [validateSettings, mergeFile, savedFile]
  · simp only [validateSettings, mergeFile, savedFile, Option.getD_some]
    rw [hred, hinj, validateIntegrations_cons3 _ _ _ _ hwf']
    simp [nonSensitiveEqIntegrations, validateCred, dumpCred]
  · intro ho
    rw [hget]
    rw [store_after_save_openai s store hwf ho]
  · intro v hp hv
    have hg : (Keyring.mk ((saveSecrets s).reverse ++ store) []).getPassword
        "splunk_password" =
        .ok (alookup ((saveSecrets s).reverse ++ store) "splunk_password") := by
      simp [Keyring.getPassword]
    rw [hg, store_after_save_splunk s store hwf v hp hv]
  · intro v hp hv
    have hg : (Keyring.mk ((saveSecrets s).reverse ++ store) []).getPassword
        "elastic_api_key" =
        .ok (alookup ((saveSecrets s).reverse ++ store) "elastic_api_key") := by
      simp [Keyring.getPassword]
    rw [hg, store_after_save_elastic s store hwf v hp hv]
  · intro v hp hv
    have hg : (Keyring.mk ((saveSecrets s).reverse ++ store) []).getPassword
        "microsoft_xdr_client_secret" =
        .ok (alookup ((saveSecrets s).reverse ++ store)
          "microsoft_xdr_client_secret") := by
      simp [Keyring.getPassword]
    rw [hg, store_after_save_xdr s store hwf v hp hv]

/-- Claim C2, witness: the round-trip theorem evaluated on a concrete
settings instance with every sensitive slot populated, saved against an
empty keyring and loaded back. -/
theorem save_load_round_trip_witness :
    rtLoaded.model = sFull.model ∧
    nonSensitiveEqIntegrations rtLoaded.integrations sFull.integrations ∧
    rtSave.1.getPassword "splunk_password" = .ok (some "pw") := by
  have h := save_load_round_trip sFull [] {} rtSave.1 rtSave.2 rtLoaded
    (by decide) (by decide) (by decide)
  exact ⟨h.2.2.2.1, h.2.2.2.2.1, h.2.2.2.2.2.2.1 "pw" (by decide) (by decide)⟩

end DetectIQ


